import Mathlib

/-!
A shallow embedding of `automeshion/testcases.py` (spacemeshos/automesh):
the environment-lifecycle test coordinator.  Python values relevant to the
embedded code are modelled by `PyVal`, Python dicts by insertion-ordered
association lists, and the runtime errors the embedded code can raise by
`PyError`.  External collaborators (the Kubernetes client, the ES cluster,
the gcloud task queue, `os.getenv`, `getpass.getuser`, `random.choice`)
enter as parameters; the calls issued to them are recorded as action
traces so that theorems can speak about which external calls happen.
-/

namespace Automeshion

/-- The Python runtime errors that the embedded code can raise. -/
inductive PyError where
  | nameError (n : String)
  | attributeError (attr : String)
  | keyError (key : String)
  | typeError (msg : String)
  | valueError (msg : String)
  | assertionError (msg : String)
  | exception (msg : String)
  deriving Repr, DecidableEq

/-- A Python value, as needed by the embedded config-handling code:
strings, booleans, and (insertion-ordered) dicts with string keys. -/
inductive PyVal where
  | str (s : String)
  | pybool (b : Bool)
  | dict (entries : List (String × PyVal))
  deriving Repr

/-- A Python dict with string keys, as an insertion-ordered association
list with unique keys (lookup takes the first match). -/
abbrev PyDict := List (String × PyVal)

/-- `d[key]` on a Python dict: the value at `key`, if present. -/
def dictGet : PyDict → String → Option PyVal
  | [], _ => none
  | (k, v) :: rest, key => if k = key then some v else dictGet rest key

/-- `d[key] = v` on a Python dict: replace in place, preserving insertion
order, or append when the key is new. -/
def dictSet : PyDict → String → PyVal → PyDict
  | [], key, v => [(key, v)]
  | (k, w) :: rest, key, v =>
      if k = key then (k, v) :: rest else (k, w) :: dictSet rest key v

/-- `d.get(key, default)` on a Python dict. -/
def dictGetD (d : PyDict) (key : String) (dflt : PyVal) : PyVal :=
  match dictGet d key with
  | some v => v
  | none => dflt

/-- Python truthiness of the embedded values: a string is truthy iff
non-empty, a bool is itself, a dict is truthy iff non-empty. -/
def truthy : PyVal → Bool
  | .str s => !(s == "")
  | .pybool b => b
  | .dict d => !d.isEmpty

@[simp] theorem dictGet_nil (key : String) : dictGet [] key = none := rfl

@[simp] theorem dictGet_cons (k : String) (v : PyVal) (rest : PyDict) (key : String) :
    dictGet ((k, v) :: rest) key = if k = key then some v else dictGet rest key := rfl

@[simp] theorem dictSet_nil (key : String) (v : PyVal) : dictSet [] key v = [(key, v)] := rfl

@[simp] theorem dictSet_cons (k : String) (w : PyVal) (rest : PyDict) (key : String) (v : PyVal) :
    dictSet ((k, w) :: rest) key v =
      if k = key then (k, v) :: rest else (k, w) :: dictSet rest key v := rfl

/-- Looking up the key just set returns the new value. -/
theorem dictGet_dictSet_self (d : PyDict) (key : String) (v : PyVal) :
    dictGet (dictSet d key v) key = some v := by
  induction d with
  | nil => simp
  | cons hd tl ih =>
      obtain ⟨k, w⟩ := hd
      by_cases h : k = key <;> simp [h, ih]

/-- Setting one key leaves every other key unchanged. -/
theorem dictGet_dictSet_ne (d : PyDict) (key : String) (v : PyVal)
    (key2 : String) (hne : key ≠ key2) :
    dictGet (dictSet d key v) key2 = dictGet d key2 := by
  induction d with
  | nil => simp [hne]
  | cons hd tl ih =>
      obtain ⟨k, w⟩ := hd
      by_cases h : k = key
      · subst h; simp [hne]
      · simp only [dictSet_cons, if_neg h, dictGet_cons]
        by_cases h2 : k = key2 <;> simp [h2, ih]

/-! ## `random_namespace` (testcases.py lines 62-67) -/

/-- `string.ascii_lowercase` from the Python standard library. -/
def ascii_lowercase : String := "abcdefghijklmnopqrstuvwxyz"

/-- `string.digits` from the Python standard library. -/
def string_digits : String := "0123456789"

/-- `NAMESPACE_SUFFIX_LEN = 8` (testcases.py line 62). -/
def NAMESPACE_SUFFIX_LEN : Nat := 8

/-- `chars = string.ascii_lowercase + string.digits` (testcases.py line 65). -/
def chars : List Char := (ascii_lowercase ++ string_digits).toList

/-- `str.join`: `sep.join(parts)` of the Python standard library. -/
def strJoin (sep : String) : List String → String
  | [] => ""
  | [p] => p
  | p :: rest => p ++ sep ++ strJoin sep rest

/-- The suffix built by `random_namespace`:
`''.join((random.choice(chars)) for x in range(NAMESPACE_SUFFIX_LEN))`.
`random.choice(chars)` is modelled by an arbitrary stream `choice` of
indices into `chars`, one per loop iteration. -/
def random_suffix (choice : Nat → Fin chars.length) : String :=
  String.mk ((List.range NAMESPACE_SUFFIX_LEN).map fun x => chars.get (choice x))

/-- `random_namespace(length=8)` (testcases.py lines 63-67).  `getuser` is
the result of `getpass.getuser()`; `length` is the (unused) parameter. -/
def random_namespace (getuser : String) (choice : Nat → Fin chars.length)
    (length : Nat) : String :=
  strJoin "-" [getuser, random_suffix choice]

/-! ## `TestCase.set_docker_images` (testcases.py lines 120-136) -/

/-- `os.getenv(name, default)`: the environment is a partial map from
variable names to values. -/
def getenvD (env : String → Option String) (n dflt : String) : String :=
  match env n with
  | some v => v
  | none => dflt

/-- `config[outer][inner] = v`: reads the sub-dict at `outer` (KeyError
when absent, TypeError when not a dict — a string supports no item
assignment) and sets `inner` in it, in place. -/
def setItemIn (config : PyDict) (outer inner : String) (v : PyVal) :
    Except PyError PyDict :=
  match dictGet config outer with
  | some (.dict d) => .ok (dictSet config outer (.dict (dictSet d inner v)))
  | some _ => .error (.typeError outer)
  | none => .error (.keyError outer)

/-- The body of `set_docker_images` given the value of the
`CLIENT_DOCKER_IMAGE` environment variable.  Python mutates the config in
place, so an error is returned together with the partially updated config
(`none` = no exception). -/
def set_docker_images_core (docker_image : String) (config : PyDict) :
    PyDict × Option PyError :=
  if truthy (.str docker_image) then
    match setItemIn config "bootstrap" "image" (.str docker_image) with
    | .error e => (config, some e)
    | .ok c1 =>
      match setItemIn c1 "client" "image" (.str docker_image) with
      | .error e => (c1, some e)
      | .ok c2 =>
        match dictGet c2 "clientv2" with
        | none => (c2, none)
        | some (.dict d) =>
          if truthy (dictGetD d "noreplace" (.pybool false)) then
            (c2, none)
          else
            match setItemIn c2 "clientv2" "image" (.str docker_image) with
            | .error e => (c2, some e)
            | .ok c3 => (c3, none)
        | some _ => (c2, some (.attributeError "get"))
  else (config, none)

/-- `TestCase.set_docker_images`:
`docker_image = os.getenv('CLIENT_DOCKER_IMAGE', '')` then the override
logic on `self.config`. -/
def set_docker_images (env : String → Option String) (config : PyDict) :
    PyDict × Option PyError :=
  set_docker_images_core (getenvD env "CLIENT_DOCKER_IMAGE" "") config

/-! ## `TestCase.set_namespace` (testcases.py lines 155-167) -/

/-- Calls issued against the cluster API by `set_namespace`. -/
inductive K8sAction where
  | list_namespace
  | create_namespace (n : String)
  deriving Repr, DecidableEq

/-- `TestCase.set_namespace`: `configNamespace` is `self.config['namespace']`,
`selfNamespace` is `self.namespace` (the generated name), `existing` is the
list of names of the namespaces in the cluster.  Returns the cluster calls
issued in order, the effective namespace, and the outcome. -/
def set_namespace (configNamespace selfNamespace : String)
    (existing : List String) : List K8sAction × String × Except PyError Unit :=
  let ns := if configNamespace = "" then selfNamespace else configNamespace
  if ns ∈ existing then
    ([.list_namespace], ns,
      .error (.valueError ("namespace: " ++ ns ++ " already exists!")))
  else
    ([.list_namespace, .create_namespace ns], ns, .ok ())

/-! ## `TestCase.start_poet` (testcases.py lines 201-213) -/

/-- External calls issued by `start_poet`. -/
inductive PoetAction where
  | search_pod_log (phrase : String)
  | api_call (data path : String)
  deriving Repr, DecidableEq

/-- The fixed readiness phrase searched for in the bootstrap pod's `poet`
container log (testcases.py line 205). -/
def POET_READY_PHRASE : String := "REST proxy start listening on 0.0.0.0:80"

/-- The fixed JSON body of the PoET initialization call
(testcases.py line 211). -/
def POET_START_BODY : String := "\x7b \"gatewayAddresses\": [\"127.0.0.1:9092\"] \x7d"

/-- `TestCase.start_poet`: `found` is the truthiness of
`pod.search_phrase_in_pod_log(...)`, `out` is the body returned by the
`api_call` to `v1/start`.  Returns the external calls issued in order and
the outcome. -/
def start_poet (found : Bool) (out : String) :
    List PoetAction × Except PyError Unit :=
  if !found then
    ([.search_pod_log POET_READY_PHRASE],
      .error (.exception "Failed to read container logs in poet"))
  else if out = "\x7b\x7d" then
    ([.search_pod_log POET_READY_PHRASE, .api_call POET_START_BODY "v1/start"], .ok ())
  else
    ([.search_pod_log POET_READY_PHRASE, .api_call POET_START_BODY "v1/start"],
      .error (.assertionError ("PoET start returned error " ++ out)))

/-! ## `TestCase.setup` (testcases.py lines 96-118)

The body of `setup` assigns `self.namespace` and `self.index_date`, prints,
and loads the YAML config.  Lines 102-118 of the source are a standalone
triple-quoted string literal — an expression statement with no effect — so
the lifecycle calls written inside it are never executed. -/

/-- The individual statements/phases appearing in `TestCase.setup`. -/
inductive SetupPhase where
  | assign_namespace      -- `self.namespace = random_namespace()`
  | assign_index_date     -- `self.index_date = datetime...`
  | print_creating        -- `print(f"creating namespace ...")`
  | load_config           -- `with open(...): self.config = yaml.safe_load(f)`
  | inert_str_expr        -- the unassigned triple-quoted string, lines 102-118
  | load_k8s_config
  | set_namespace_call
  | set_docker_images_call
  | add_elk
  | add_node_pool
  | create_curl_pod
  | setup_bootstrap
  | start_poet_call
  | setup_clients
  | build_network_info
  | wait_genesis
  deriving Repr, DecidableEq

/-- The statements `TestCase.setup` actually executes, in source order
(testcases.py lines 97-118). -/
def setupExecutedPhases : List SetupPhase :=
  [.assign_namespace, .assign_index_date, .print_creating, .load_config,
   .inert_str_expr]

/-- The lifecycle calls written INSIDE the unassigned string literal of
`setup` (testcases.py lines 103-117), in the order they appear there. -/
def setupInertPhases : List SetupPhase :=
  [.load_k8s_config, .set_namespace_call, .set_docker_images_call, .add_elk,
   .add_node_pool, .create_curl_pod, .setup_bootstrap, .start_poet_call,
   .setup_clients, .build_network_info, .wait_genesis]

/-- The lifecycle sequence the spec describes: namespace provisioning,
ELK, node-pool scaling, bootstrap, PoET, clients, genesis sync. -/
def specLifecyclePhases : List SetupPhase :=
  [.set_namespace_call, .add_elk, .add_node_pool, .setup_bootstrap,
   .start_poet_call, .setup_clients, .wait_genesis]

/-! ## `TestCase.__call__` (testcases.py lines 233-255)

The except-clause around `self.setup()` runs `if debug:` — but the name
`debug` is bound nowhere: it is not a local of `__call__`, not a name of
module `automeshion.testcases`, and not a Python builtin, so evaluating it
raises `NameError`, which propagates out of `__call__`. -/

/-- The local names in scope at the `if debug:` statement of
`TestCase.__call__`: the parameters and earlier assignments. -/
def callLocalNames : List String := ["self", "result", "testMethod", "skipped"]

/-- The names bound at module level in `automeshion/testcases.py`: the
imports (lines 1-27) and the module-level definitions. -/
def testcasesModuleNames : List String :=
  ["datetime", "getpass", "os", "sys", "random", "string", "unittest",
   "_DebugResult", "client", "k8s_config", "yaml", "pod", "conf", "Context",
   "ES", "add_elastic_cluster", "add_kibana_cluster", "add_fluent_bit_cluster",
   "wait_for_to_be_ready", "CoreV1ApiClient", "NodePoolDep",
   "setup_bootstrap_in_namespace", "setup_clients_in_namespace", "api_call",
   "wait_for_elk_cluster_ready", "wait_genesis", "get_genesis_time_delta",
   "create_google_cloud_task", "DeploymentInfo", "NetworkInfo",
   "NetworkDeploymentInfo", "NAMESPACE_SUFFIX_LEN", "random_namespace",
   "TestCase", "AMTestResult"]

/-- The names of the Python builtins module (CPython 3.x). -/
def pythonBuiltinNames : List String :=
  ["abs", "all", "any", "ascii", "bin", "bool", "breakpoint", "bytearray",
   "bytes", "callable", "chr", "classmethod", "compile", "complex",
   "copyright", "credits", "delattr", "dict", "dir", "divmod", "enumerate",
   "eval", "exec", "exit", "filter", "float", "format", "frozenset",
   "getattr", "globals", "hasattr", "hash", "help", "hex", "id", "input",
   "int", "isinstance", "issubclass", "iter", "len", "license", "list",
   "locals", "map", "max", "memoryview", "min", "next", "object", "oct",
   "open", "ord", "pow", "print", "property", "quit", "range", "repr",
   "reversed", "round", "set", "setattr", "slice", "sorted", "staticmethod",
   "str", "sum", "super", "tuple", "type", "vars", "zip", "__import__",
   "__name__", "__doc__", "__package__", "__loader__", "__spec__",
   "__debug__", "__build_class__", "ArithmeticError", "AssertionError",
   "AttributeError", "BaseException", "BlockingIOError", "BrokenPipeError",
   "BufferError", "BytesWarning", "ChildProcessError", "ConnectionAbortedError",
   "ConnectionError", "ConnectionRefusedError", "ConnectionResetError",
   "DeprecationWarning", "EOFError", "Ellipsis", "EnvironmentError",
   "Exception", "False", "FileExistsError", "FileNotFoundError",
   "FloatingPointError", "FutureWarning", "GeneratorExit", "IOError",
   "ImportError", "ImportWarning", "IndentationError", "IndexError",
   "InterruptedError", "IsADirectoryError", "KeyError", "KeyboardInterrupt",
   "LookupError", "MemoryError", "ModuleNotFoundError", "NameError", "None",
   "NotADirectoryError", "NotImplemented", "NotImplementedError", "OSError",
   "OverflowError", "PendingDeprecationWarning", "PermissionError",
   "ProcessLookupError", "RecursionError", "ReferenceError", "ResourceWarning",
   "RuntimeError", "RuntimeWarning", "StopAsyncIteration", "StopIteration",
   "SyntaxError", "SyntaxWarning", "SystemError", "SystemExit", "TabError",
   "TimeoutError", "True", "TypeError", "UnboundLocalError",
   "UnicodeDecodeError", "UnicodeEncodeError", "UnicodeError",
   "UnicodeTranslateError", "UnicodeWarning", "UserWarning", "ValueError",
   "Warning", "ZeroDivisionError"]

/-- Python name resolution at the `if debug:` statement: locals, then
module globals, then builtins. -/
def nameResolvesInCall (n : String) : Bool :=
  n ∈ callLocalNames || n ∈ testcasesModuleNames || n ∈ pythonBuiltinNames

/-- The possible outcomes of one `TestCase.__call__` invocation. -/
inductive CallOutcome where
  | ranTest                 -- reached `super().__call__(result)`
  | errorRecorded           -- `result.addError(...)` then `return`
  | raised (e : PyError)    -- an exception propagated out of `__call__`
  deriving Repr, DecidableEq

/-- `TestCase.__call__`: `skipped` mirrors the `__systemtest_skip__`
lookups, `hasConfig` mirrors `hasattr(self, 'config')`, `setupRaises` says
whether `self.setup()` raises, and `debugTruthy` is the truthiness the
name `debug` WOULD have if it resolved (it never does).  In the
except-clause, `if debug:` first resolves the name `debug`; an unresolved
name raises `NameError`, which propagates out of the except-clause. -/
def TestCase_call (skipped hasConfig setupRaises debugTruthy : Bool) :
    CallOutcome :=
  if !skipped && !hasConfig then
    if setupRaises then
      if nameResolvesInCall "debug" then
        if debugTruthy then .raised (.exception "setup error re-raised")
        else .errorRecorded
      else .raised (.nameError "debug")
    else .ranTest
  else .ranTest

/-! ## `AMTestResult.stopTestRun` (testcases.py lines 261-298)

`AMTestResult.__init__` stores the test case in `self.testcase`; the
attributes of an `AMTestResult` instance are therefore `testcase` plus
those set by `unittest.TestResult.__init__`.  `stopTestRun` nevertheless
reads `self.index_date` and `self.namespace` — attributes that live on
`self.testcase`, not on `self` — so the attribute lookups raise
`AttributeError` before `create_google_cloud_task` is ever reached. -/

/-- The attribute names of an `AMTestResult` instance: `testcase` (set in
`AMTestResult.__init__`, also a class attribute) plus the instance
attributes set by `unittest.TestResult.__init__` (CPython 3.x). -/
def AMTestResultAttrNames : List String :=
  ["testcase", "failfast", "failures", "errors", "testsRun", "skipped",
   "expectedFailures", "unexpectedSuccesses", "shouldStop", "buffer",
   "tb_locals", "_stdout_buffer", "_stderr_buffer", "_original_stdout",
   "_original_stderr", "_mirrorOutput"]

/-- Python attribute read `self.a`: the attribute's value when `a` is
among the object's attributes, `AttributeError` otherwise.  `vals` gives
the value of each attribute that does exist. -/
def getattrOn (attrs : List String) (vals : String → String) (a : String) :
    Except PyError String :=
  if a ∈ attrs then .ok (vals a) else .error (.attributeError a)

/-- The constants `stopTestRun` reads from module `automeshion.config`
(`conf`), an external collaborator. -/
structure ConfModule where
  ES_USER_LOCAL : String
  ES_PASS_LOCAL : String
  MAIN_ES_IP : String
  DUMP_QUEUE_NAME : String
  DUMP_QUEUE_ZONE : String
  PROJECT_ID : String
  TD_QUEUE_NAME : String
  TD_QUEUE_ZONE : String
  CLUSTER_NAME : String
  CLUSTER_ZONE : String

/-- The single task handed to `create_google_cloud_task(queue_params,
payload, **dump_params)` when `stopTestRun` reaches that call. -/
structure SubmittedTask where
  queue_params : PyDict
  payload : PyDict
  dump_params : PyDict

/-- `AMTestResult.stopTestRun` over an explicit attribute set `attrs` (with
values `vals`): `success` is `self.wasSuccessful()`, `get_elastic_ip`
models `ES(ns).get_elastic_ip()`.  `.ok t` means the task `t` was submitted
to the queue; `.error e` means the exception `e` was raised first and no
task was submitted. -/
def stopTestRunOn (attrs : List String) (vals : String → String)
    (success : Bool) (conf : ConfModule) (get_elastic_ip : String → String) :
    Except PyError SubmittedTask := do
  let dump_params ←
    if !success then do
      let index_date ← getattrOn attrs vals "index_date"
      let ns ← getattrOn attrs vals "namespace"
      pure ([("index_date", .str index_date),
             ("es_ip", .str (get_elastic_ip ns)),
             ("es_user", .str conf.ES_USER_LOCAL),
             ("es_pass", .str conf.ES_PASS_LOCAL),
             ("main_es_ip", .str conf.MAIN_ES_IP),
             ("dump_queue_name", .str conf.DUMP_QUEUE_NAME),
             ("dump_queue_zone", .str conf.DUMP_QUEUE_ZONE)] : PyDict)
    else
      pure ([] : PyDict)
  let queue_params : PyDict :=
    [("project_id", .str conf.PROJECT_ID),
     ("queue_name", .str conf.TD_QUEUE_NAME),
     ("queue_zone", .str conf.TD_QUEUE_ZONE)]
  let ns ← getattrOn attrs vals "namespace"
  let payload : PyDict :=
    [("namespace", .str ns),
     ("is_delns", .pybool true),
     ("is_dump", .pybool (!success)),
     ("project_id", .str conf.PROJECT_ID),
     ("pool_name", .str ("pool-" ++ ns)),
     ("cluster_name", .str conf.CLUSTER_NAME),
     ("node_pool_zone", .str conf.CLUSTER_ZONE)]
  pure { queue_params := queue_params, payload := payload,
         dump_params := dump_params }

/-- `AMTestResult.stopTestRun` on an actual `AMTestResult` instance. -/
def AMTestResult_stopTestRun (vals : String → String) (success : Bool)
    (conf : ConfModule) (get_elastic_ip : String → String) :
    Except PyError SubmittedTask :=
  stopTestRunOn AMTestResultAttrNames vals success conf get_elastic_ip

/-! ## Theorems -/

/-- C8: every name produced by `random_namespace` is the operator's user
name, a hyphen, then exactly 8 characters each drawn from lowercase
letters and digits. -/
theorem random_namespace_format (getuser : String)
    (choice : Nat → Fin chars.length) (length : Nat) :
    random_namespace getuser choice length =
      getuser ++ "-" ++ random_suffix choice ∧
    (random_suffix choice).length = 8 ∧
    (random_suffix choice).data.all (fun c => chars.contains c) = true := by
  refine ⟨rfl, ?_, ?_⟩
  · simp [random_suffix, NAMESPACE_SUFFIX_LEN, String.length]
  · rw [List.all_eq_true]
    intro c hc
    simp only [random_suffix, String.mk, List.mem_map] at hc
    obtain ⟨x, _, rfl⟩ := hc
    exact List.elem_iff.mpr (List.get_mem _ _ _)

/-- C9: `random_namespace` ignores its `length` parameter — the suffix
always has `NAMESPACE_SUFFIX_LEN = 8` characters, so any two lengths give
names of the same shape. -/
theorem random_namespace_ignores_length (getuser : String)
    (choice : Nat → Fin chars.length) (n m : Nat) :
    random_namespace getuser choice n = random_namespace getuser choice m ∧
    (random_suffix choice).length = NAMESPACE_SUFFIX_LEN ∧
    NAMESPACE_SUFFIX_LEN = 8 := by
  refine ⟨rfl, ?_, rfl⟩
  simp [random_suffix, String.length]

/-- C7: `start_poet` raises when the readiness phrase is absent from the
pod log and then never issues the initialization `api_call`; when the
phrase is present, the call succeeds iff the response body is exactly the
literal `"{}"`, and any other body raises. -/
theorem start_poet_spec (found : Bool) (out : String) :
    (found = false →
      (start_poet found out).2 =
        .error (.exception "Failed to read container logs in poet") ∧
      ∀ d p, PoetAction.api_call d p ∉ (start_poet found out).1) ∧
    (found = true →
      ((start_poet found out).2 = .ok () ↔ out = "\x7b\x7d") ∧
      (out ≠ "\x7b\x7d" →
        (start_poet found out).2 =
          .error (.assertionError ("PoET start returned error " ++ out)))) := by
  constructor
  · rintro rfl
    refine ⟨rfl, ?_⟩
    intro d p hmem
    simp [start_poet] at hmem
  · rintro rfl
    by_cases h : out = "\x7b\x7d"
    · subst h
      exact ⟨by simp [start_poet], fun hcontra => absurd rfl hcontra⟩
    · constructor
      · simp [start_poet, h]
      · intro _
        simp [start_poet, h]

/-- Witness for C7: concrete runs of `start_poet` — phrase missing, phrase
present with body `"{}"`, phrase present with another body. -/
theorem start_poet_spec_witness :
    (start_poet false "x").2 =
      .error (.exception "Failed to read container logs in poet") ∧
    (start_poet true "\x7b\x7d").2 = .ok () ∧
    (start_poet true "oops").2 =
      .error (.assertionError ("PoET start returned error " ++ "oops")) := by
  refine ⟨((start_poet_spec false "x").1 rfl).1, ?_, ?_⟩
  · exact ((start_poet_spec true "\x7b\x7d").2 rfl).1.mpr rfl
  · exact ((start_poet_spec true "oops").2 rfl).2 (by decide)

/-- C5: `set_namespace` with a (configured or generated) name already in
the cluster's namespace list fails with the duplicate-namespace error
(raised as `ValueError` in the source, the spec's `DuplicateResourceError`)
and never issues `create_namespace`; with a fresh name it issues
`create_namespace`. -/
theorem set_namespace_duplicate_guard (cn sn : String) (existing : List String) :
    ((if cn = "" then sn else cn) ∈ existing →
      (set_namespace cn sn existing).2.2 =
        .error (.valueError
          ("namespace: " ++ (if cn = "" then sn else cn) ++ " already exists!")) ∧
      ∀ m, K8sAction.create_namespace m ∉ (set_namespace cn sn existing).1) ∧
    ((if cn = "" then sn else cn) ∉ existing →
      (set_namespace cn sn existing).2.2 = .ok () ∧
      K8sAction.create_namespace (if cn = "" then sn else cn) ∈
        (set_namespace cn sn existing).1) := by
  constructor
  · intro hmem
    refine ⟨?_, ?_⟩
    · simp [set_namespace, hmem]
    · intro m hin
      simp [set_namespace, hmem] at hin
  · intro hmem
    constructor
    · simp [set_namespace, hmem]
    · simp [set_namespace, hmem]

/-- Witness for C5: a duplicate configured name is rejected with no create
call, and a fresh name leads to a create call. -/
theorem set_namespace_duplicate_guard_witness :
    ((set_namespace "mine" "u-abc12345" ["mine"]).2.2 =
      .error (.valueError ("namespace: " ++ "mine" ++ " already exists!")) ∧
     K8sAction.create_namespace "mine" ∉
       (set_namespace "mine" "u-abc12345" ["mine"]).1) ∧
    ((set_namespace "fresh" "u-abc12345" ["mine"]).2.2 = .ok () ∧
     K8sAction.create_namespace "fresh" ∈
       (set_namespace "fresh" "u-abc12345" ["mine"]).1) := by
  have h1 := (set_namespace_duplicate_guard "mine" "u-abc12345" ["mine"]).1 (by decide)
  have h2 := (set_namespace_duplicate_guard "fresh" "u-abc12345" ["mine"]).2 (by decide)
  exact ⟨⟨by simpa using h1.1, by simpa using h1.2 "mine"⟩,
         ⟨h2.1, by simpa using h2.2⟩⟩

/-- `config[outer][inner]` as a read: `none` when `outer` is missing or
not a dict. -/
def getPath (config : PyDict) (outer inner : String) : Option PyVal :=
  match dictGet config outer with
  | some (.dict d) => dictGet d inner
  | _ => none

/-- A successful `config[outer][inner] = v` changes no key other than
`outer` and no nested entry other than `inner`. -/
theorem setItemIn_frame {c c' : PyDict} {outer inner : String} {v : PyVal}
    (h : setItemIn c outer inner v = .ok c') :
    (∀ k, k ≠ outer → dictGet c' k = dictGet c k) ∧
    (∀ o i, i ≠ inner → getPath c' o i = getPath c o i) := by
  cases hg : dictGet c outer with
  | none => simp [setItemIn, hg] at h
  | some val =>
      cases val with
      | str s => simp [setItemIn, hg] at h
      | pybool b => simp [setItemIn, hg] at h
      | dict d =>
          simp only [setItemIn, hg, Except.ok.injEq] at h
          subst h
          refine ⟨fun k hk => dictGet_dictSet_ne c outer _ k (Ne.symm hk),
                  fun o i hi => ?_⟩
          by_cases ho : o = outer
          · subst ho
            simp [getPath, dictGet_dictSet_self, hg,
                  dictGet_dictSet_ne d inner v i (Ne.symm hi)]
          · simp [getPath, dictGet_dictSet_ne c outer _ o (Ne.symm ho)]

/-- The frame `set_docker_images` is claimed to respect: only the three
sub-mappings may change, and inside them only the `image` entry. -/
def ImageFrame (cfg cfg' : PyDict) : Prop :=
  (∀ k, k ≠ "bootstrap" → k ≠ "client" → k ≠ "clientv2" →
    dictGet cfg' k = dictGet cfg k) ∧
  (∀ o i, i ≠ "image" → getPath cfg' o i = getPath cfg o i)

theorem ImageFrame.refl (cfg : PyDict) : ImageFrame cfg cfg :=
  ⟨fun _ _ _ _ => rfl, fun _ _ _ => rfl⟩

theorem ImageFrame.trans {a b c : PyDict} (h1 : ImageFrame a b)
    (h2 : ImageFrame b c) : ImageFrame a c :=
  ⟨fun k hb hc hv => (h2.1 k hb hc hv).trans (h1.1 k hb hc hv),
   fun o i hi => (h2.2 o i hi).trans (h1.2 o i hi)⟩

/-- A successful `config[outer]['image'] = v` with `outer` one of the
three image-bearing keys respects `ImageFrame`. -/
theorem setItemIn_imageFrame {c c' : PyDict} {outer : String} {v : PyVal}
    (houter : outer = "bootstrap" ∨ outer = "client" ∨ outer = "clientv2")
    (h : setItemIn c outer "image" v = .ok c') : ImageFrame c c' := by
  obtain ⟨hk, hp⟩ := setItemIn_frame h
  refine ⟨fun k hb hc hv => hk k ?_, hp⟩
  rcases houter with rfl | rfl | rfl
  · exact hb
  · exact hc
  · exact hv

/-- `set_docker_images_core` respects `ImageFrame` on every path, and is
the identity (with no exception) when the override is empty. -/
theorem set_docker_images_core_frame (img : String) (cfg : PyDict) :
    ImageFrame cfg (set_docker_images_core img cfg).1 ∧
    (img = "" → set_docker_images_core img cfg = (cfg, none)) := by
  by_cases himg : img = ""
  · subst himg
    have hred : set_docker_images_core "" cfg = (cfg, none) := by
      simp [set_docker_images_core, truthy]
    rw [hred]
    exact ⟨ImageFrame.refl cfg, fun _ => rfl⟩
  · have htr : truthy (.str img) = true := by simp [truthy, himg]
    refine ⟨?_, fun h => absurd h himg⟩
    cases h1 : setItemIn cfg "bootstrap" "image" (.str img) with
    | error e =>
        simp only [set_docker_images_core, htr, if_true, h1]
        exact ImageFrame.refl cfg
    | ok c1 =>
        have F1 := setItemIn_imageFrame (Or.inl rfl) h1
        cases h2 : setItemIn c1 "client" "image" (.str img) with
        | error e =>
            simp only [set_docker_images_core, htr, if_true, h1, h2]
            exact F1
        | ok c2 =>
            have F2 := setItemIn_imageFrame (Or.inr (Or.inl rfl)) h2
            cases h3 : dictGet c2 "clientv2" with
            | none =>
                simp only [set_docker_images_core, htr, if_true, h1, h2, h3]
                exact F1.trans F2
            | some v2 =>
                cases v2 with
                | str s =>
                    simp only [set_docker_images_core, htr, if_true, h1, h2, h3]
                    exact F1.trans F2
                | pybool b =>
                    simp only [set_docker_images_core, htr, if_true, h1, h2, h3]
                    exact F1.trans F2
                | dict d =>
                    by_cases hnr : truthy (dictGetD d "noreplace" (.pybool false)) = true
                    · simp only [set_docker_images_core, htr, if_true, h1, h2, h3,
                                 hnr]
                      exact F1.trans F2
                    · have hnr2 : truthy (dictGetD d "noreplace" (.pybool false)) = false := by
                        simpa using hnr
                      cases h4 : setItemIn c2 "clientv2" "image" (.str img) with
                      | error e =>
                          simp only [set_docker_images_core, htr, if_true, h1, h2,
                                     h3, hnr2, Bool.false_eq_true, if_false, h4]
                          exact F1.trans F2
                      | ok c3 =>
                          have F3 := setItemIn_imageFrame
                            (Or.inr (Or.inr rfl)) h4
                          simp only [set_docker_images_core, htr, if_true, h1, h2,
                                     h3, hnr2, Bool.false_eq_true, if_false, h4]
                          exact (F1.trans F2).trans F3

/-- C10: `set_docker_images` mutates at most the `image` entries of the
`bootstrap`, `client` and `clientv2` sub-mappings; every other config
entry is unchanged, and an unset or empty `CLIENT_DOCKER_IMAGE` leaves the
config entirely unchanged. -/
theorem set_docker_images_mutates_only_images (env : String → Option String)
    (cfg : PyDict) :
    (∀ k, k ≠ "bootstrap" → k ≠ "client" → k ≠ "clientv2" →
      dictGet (set_docker_images env cfg).1 k = dictGet cfg k) ∧
    (∀ o i, i ≠ "image" →
      getPath (set_docker_images env cfg).1 o i = getPath cfg o i) ∧
    ((env "CLIENT_DOCKER_IMAGE" = none ∨ env "CLIENT_DOCKER_IMAGE" = some "") →
      set_docker_images env cfg = (cfg, none)) := by
  obtain ⟨hframe, hempty⟩ :=
    set_docker_images_core_frame (getenvD env "CLIENT_DOCKER_IMAGE" "") cfg
  refine ⟨hframe.1, hframe.2, fun h => ?_⟩
  have : getenvD env "CLIENT_DOCKER_IMAGE" "" = "" := by
    rcases h with h | h <;> simp [getenvD, h]
  exact hempty this

/-- Witness for C10: a concrete config whose non-image entries survive the
override, and a concrete empty environment that changes nothing. -/
theorem set_docker_images_mutates_only_images_witness :
    (dictGet (set_docker_images (fun _ => some "img:v2")
        [("namespace", .str ""),
         ("bootstrap", .dict [("image", .str "old"), ("args", .str "a")]),
         ("client", .dict [("image", .str "old")]),
         ("genesis_delta", .str "50")]).1 "genesis_delta" =
      dictGet [("namespace", PyVal.str ""),
         ("bootstrap", .dict [("image", .str "old"), ("args", .str "a")]),
         ("client", .dict [("image", .str "old")]),
         ("genesis_delta", .str "50")] "genesis_delta") ∧
    (getPath (set_docker_images (fun _ => some "img:v2")
        [("namespace", .str ""),
         ("bootstrap", .dict [("image", .str "old"), ("args", .str "a")]),
         ("client", .dict [("image", .str "old")]),
         ("genesis_delta", .str "50")]).1 "bootstrap" "args" =
      getPath [("namespace", PyVal.str ""),
         ("bootstrap", .dict [("image", .str "old"), ("args", .str "a")]),
         ("client", .dict [("image", .str "old")]),
         ("genesis_delta", .str "50")] "bootstrap" "args") ∧
    set_docker_images (fun _ => none)
        [("namespace", .str ""), ("bootstrap", .dict [("image", .str "old")])] =
      ([("namespace", .str ""), ("bootstrap", .dict [("image", .str "old")])],
        none) := by
  refine ⟨?_, ?_, ?_⟩
  · exact (set_docker_images_mutates_only_images (fun _ => some "img:v2") _).1
      "genesis_delta" (by decide) (by decide) (by decide)
  · exact ((set_docker_images_mutates_only_images
      (fun _ => some "img:v2") _).2.1) "bootstrap" "args" (by decide)
  · exact ((set_docker_images_mutates_only_images (fun _ => none) _).2.2)
      (Or.inl rfl)

/-- C6: with a non-empty override, `set_docker_images` sets
`bootstrap.image` and `client.image` to the override; `clientv2.image` is
also set when `noreplace` is absent or falsy, and `clientv2` is left
untouched when `noreplace` is truthy. -/
theorem set_docker_images_override (img : String) (cfg db dc d : PyDict)
    (himg : img ≠ "")
    (hb : dictGet cfg "bootstrap" = some (.dict db))
    (hc : dictGet cfg "client" = some (.dict dc))
    (hcv : dictGet cfg "clientv2" = some (.dict d)) :
    (set_docker_images_core img cfg).2 = none ∧
    getPath (set_docker_images_core img cfg).1 "bootstrap" "image" =
      some (.str img) ∧
    getPath (set_docker_images_core img cfg).1 "client" "image" =
      some (.str img) ∧
    (truthy (dictGetD d "noreplace" (.pybool false)) = false →
      getPath (set_docker_images_core img cfg).1 "clientv2" "image" =
        some (.str img)) ∧
    (truthy (dictGetD d "noreplace" (.pybool false)) = true →
      dictGet (set_docker_images_core img cfg).1 "clientv2" =
        dictGet cfg "clientv2") := by
  have htr : truthy (.str img) = true := by simp [truthy, himg]
  have h1 : setItemIn cfg "bootstrap" "image" (.str img) =
      .ok (dictSet cfg "bootstrap" (.dict (dictSet db "image" (.str img)))) := by
    simp [setItemIn, hb]
  generalize hc1 : dictSet cfg "bootstrap" (.dict (dictSet db "image" (.str img))) = c1 at h1
  have hc1client : dictGet c1 "client" = some (.dict dc) := by
    rw [← hc1, dictGet_dictSet_ne cfg "bootstrap" _ "client" (by decide)]
    exact hc
  have hc1b : dictGet c1 "bootstrap" = some (.dict (dictSet db "image" (.str img))) := by
    rw [← hc1, dictGet_dictSet_self]
  have hc1cv : dictGet c1 "clientv2" = some (.dict d) := by
    rw [← hc1, dictGet_dictSet_ne cfg "bootstrap" _ "clientv2" (by decide)]
    exact hcv
  have h2 : setItemIn c1 "client" "image" (.str img) =
      .ok (dictSet c1 "client" (.dict (dictSet dc "image" (.str img)))) := by
    simp [setItemIn, hc1client]
  generalize hc2 : dictSet c1 "client" (.dict (dictSet dc "image" (.str img))) = c2 at h2
  have hc2cv : dictGet c2 "clientv2" = some (.dict d) := by
    rw [← hc2, dictGet_dictSet_ne c1 "client" _ "clientv2" (by decide)]
    exact hc1cv
  have hc2b : dictGet c2 "bootstrap" = some (.dict (dictSet db "image" (.str img))) := by
    rw [← hc2, dictGet_dictSet_ne c1 "client" _ "bootstrap" (by decide)]
    exact hc1b
  have hc2c : dictGet c2 "client" = some (.dict (dictSet dc "image" (.str img))) := by
    rw [← hc2, dictGet_dictSet_self]
  by_cases hnr : truthy (dictGetD d "noreplace" (.pybool false)) = true
  · have hres : set_docker_images_core img cfg = (c2, none) := by
      simp only [set_docker_images_core, htr, if_true, h1, h2, hc2cv, hnr]
    rw [hres]
    refine ⟨rfl, ?_, ?_, fun hfalse => by simp [hfalse] at hnr, fun _ => ?_⟩
    · simp [getPath, hc2b, dictGet_dictSet_self]
    · simp [getPath, hc2c, dictGet_dictSet_self]
    · rw [hc2cv, hcv]
  · have hnr2 : truthy (dictGetD d "noreplace" (.pybool false)) = false := by
      simpa using hnr
    have h4 : setItemIn c2 "clientv2" "image" (.str img) =
        .ok (dictSet c2 "clientv2" (.dict (dictSet d "image" (.str img)))) := by
      simp [setItemIn, hc2cv]
    generalize hc3 : dictSet c2 "clientv2" (.dict (dictSet d "image" (.str img))) = c3 at h4
    have hres : set_docker_images_core img cfg = (c3, none) := by
      simp only [set_docker_images_core, htr, if_true, h1, h2, hc2cv, hnr2,
                 Bool.false_eq_true, if_false, h4]
    rw [hres]
    refine ⟨rfl, ?_, ?_, fun _ => ?_, fun htrue => absurd htrue hnr⟩
    · have hg : dictGet c3 "bootstrap" = some (.dict (dictSet db "image" (.str img))) := by
        rw [← hc3, dictGet_dictSet_ne c2 "clientv2" _ "bootstrap" (by decide)]
        exact hc2b
      simp [getPath, hg, dictGet_dictSet_self]
    · have hg : dictGet c3 "client" = some (.dict (dictSet dc "image" (.str img))) := by
        rw [← hc3, dictGet_dictSet_ne c2 "clientv2" _ "client" (by decide)]
        exact hc2c
      simp [getPath, hg, dictGet_dictSet_self]
    · have hg : dictGet c3 "clientv2" = some (.dict (dictSet d "image" (.str img))) := by
        rw [← hc3, dictGet_dictSet_self]
      simp [getPath, hg, dictGet_dictSet_self]

/-- Witness for C6: a concrete config without `noreplace` has all three
images overridden; one with `noreplace = true` keeps `clientv2` intact. -/
theorem set_docker_images_override_witness :
    (getPath (set_docker_images_core "img:v2"
        [("bootstrap", .dict [("image", .str "a")]),
         ("client", .dict [("image", .str "b")]),
         ("clientv2", .dict [("image", .str "c")])]).1 "bootstrap" "image" =
      some (.str "img:v2")) ∧
    (getPath (set_docker_images_core "img:v2"
        [("bootstrap", .dict [("image", .str "a")]),
         ("client", .dict [("image", .str "b")]),
         ("clientv2", .dict [("image", .str "c")])]).1 "client" "image" =
      some (.str "img:v2")) ∧
    (getPath (set_docker_images_core "img:v2"
        [("bootstrap", .dict [("image", .str "a")]),
         ("client", .dict [("image", .str "b")]),
         ("clientv2", .dict [("image", .str "c")])]).1 "clientv2" "image" =
      some (.str "img:v2")) ∧
    (dictGet (set_docker_images_core "img:v2"
        [("bootstrap", .dict [("image", .str "a")]),
         ("client", .dict [("image", .str "b")]),
         ("clientv2", .dict [("image", .str "c"), ("noreplace", .pybool true)])]).1
        "clientv2" =
      some (.dict [("image", .str "c"), ("noreplace", .pybool true)])) := by
  have T1 := set_docker_images_override "img:v2"
    [("bootstrap", .dict [("image", .str "a")]),
     ("client", .dict [("image", .str "b")]),
     ("clientv2", .dict [("image", .str "c")])]
    [("image", .str "a")] [("image", .str "b")] [("image", .str "c")]
    (by decide) rfl rfl rfl
  have T2 := set_docker_images_override "img:v2"
    [("bootstrap", .dict [("image", .str "a")]),
     ("client", .dict [("image", .str "b")]),
     ("clientv2", .dict [("image", .str "c"), ("noreplace", .pybool true)])]
    [("image", .str "a")] [("image", .str "b")]
    [("image", .str "c"), ("noreplace", .pybool true)]
    (by decide) rfl rfl rfl
  exact ⟨T1.2.1, T1.2.2.1, T1.2.2.2.1 rfl, (T2.2.2.2.2 rfl).trans rfl⟩

/-- C1 (code bug): on a non-skipped run whose setup raises, `__call__`
does not record the failure via `result.addError` — the except clause
evaluates the unbound name `debug`, raising `NameError`, which propagates
out of `__call__` regardless of any would-be debug truthiness. -/
theorem TestCase_call_setup_error_raises_nameError (debugTruthy : Bool) :
    TestCase_call false false true debugTruthy = .raised (.nameError "debug") ∧
    nameResolvesInCall "debug" = false := by
  cases debugTruthy <;> exact ⟨by decide, by decide⟩

/-- C2 (code bug): `stopTestRun` never reaches `create_google_cloud_task`:
it reads `self.index_date` / `self.namespace`, attributes that live on
`self.testcase` and not on the `AMTestResult` instance, so an
`AttributeError` is raised first on success and failure alike and no task
is submitted. -/
theorem stopTestRun_never_submits (vals : String → String) (success : Bool)
    (conf : ConfModule) (ip : String → String) :
    AMTestResult_stopTestRun vals success conf ip =
      .error (.attributeError (if success then "namespace" else "index_date")) := by
  cases success <;> rfl

/-- C3 (code bug): `setup` executes only namespace-name generation and
config loading; every lifecycle call sits inside the inert string literal
(where they do appear, in the spec's order) and none is executed. -/
theorem setup_lifecycle_not_executed :
    setupExecutedPhases.contains SetupPhase.set_namespace_call = false ∧
    setupExecutedPhases.contains SetupPhase.add_elk = false ∧
    setupExecutedPhases.contains SetupPhase.add_node_pool = false ∧
    setupExecutedPhases.contains SetupPhase.setup_bootstrap = false ∧
    setupExecutedPhases.contains SetupPhase.start_poet_call = false ∧
    setupExecutedPhases.contains SetupPhase.setup_clients = false ∧
    setupExecutedPhases.contains SetupPhase.wait_genesis = false ∧
    specLifecyclePhases.isSublist setupInertPhases = true := by
  decide

/-- C4 (code bug): no dump-parameter set is ever passed to the queue — on
a failed run `stopTestRun` raises `AttributeError` at `self.index_date`,
the very first dump-parameter value, and on a successful run at
`self.namespace` in the payload, before `create_google_cloud_task`. -/
theorem stopTestRun_dump_params_never_passed (vals : String → String)
    (conf : ConfModule) (ip : String → String) :
    AMTestResult_stopTestRun vals false conf ip =
      .error (.attributeError "index_date") ∧
    AMTestResult_stopTestRun vals true conf ip =
      .error (.attributeError "namespace") := by
  exact ⟨rfl, rfl⟩

end Automeshion
